import Mathlib

/-!
# Verification of the small-business subsidy scoring engine

A shallow embedding of `small_business_scoring_engine.py` and of the parts of
`small_business_analyzer.py` that the verified properties concern, together with
theorems settling the specification's claims about them.

Modelling conventions:
* Python strings become `List Char`; `s in t` (substring containment) becomes
  `containsSub`; `str.lower()` becomes `lowerText` (ASCII lowering, which agrees
  with Python on the ASCII and Japanese characters the program handles).
* Python floats become `ℚ`; `round(x, 1)` becomes `round1` (round to the nearest
  tenth; ties, which the verified properties never depend on, round half up).
* The `document_analysis` dictionary is consumed by the scoring engine only
  through `document_analysis.get('text_content', '')`, so it is modelled by the
  text itself.
* The regular-expression searches of the source are embedded as executable
  scanners specialised to the source's patterns (`searchNum`, `searchDateYM`,
  …); `\d` is ASCII `0`-`9`.
-/

namespace SubsidyScoring

/-- A Python string, as a list of characters. -/
abbrev Text := List Char

/-- ASCII lowering of one character: `'A'`-`'Z'` (code points 65-90) map 32 code
points up, everything else is unchanged.  This is Python `str.lower()` on the
character sets the program processes (ASCII letters and Japanese text). -/
def lowerChar (c : Char) : Char :=
  if 65 ≤ c.toNat ∧ c.toNat ≤ 90 then Char.ofNat (c.toNat + 32) else c

/-- Python `str.lower()`. -/
def lowerText (t : Text) : Text := t.map lowerChar

/-- Python substring containment `needle in haystack`. -/
def containsSub (needle : Text) : Text → Bool
  | [] => needle.isEmpty
  | c :: rest => needle.isPrefixOf (c :: rest) || containsSub needle rest

/-- Convenience: a list of string literals as keyword texts. -/
def kws (l : List String) : List Text := l.map String.data

/-! ## Embedded regular-expression scanners

The source searches for a handful of fixed numeric patterns.  Each is embedded
as a direct scanner over the character list.  `numTail units uopt sfx` decides
whether, after at least one digit has been consumed, the remaining input
continues with more digits, then (optionally if `uopt`, else mandatorily when
`units ≠ []`) one unit character from `units`, then the suffix character `sfx` —
i.e. it finishes a match of `\d+[units]?sfx` (or `\d+[units]sfx`, or `\d+sfx`
when `units = []`). -/

/-- Finish a match of `\d+` followed by a unit class and a suffix character.
`uopt = true` makes the unit class optional (`[...]?`). -/
def numTail (units : List Char) (uopt : Bool) (sfx : Char) : Text → Bool
  | [] => false
  | c :: rest =>
    if c.isDigit then numTail units uopt sfx rest
    else if units.contains c then
      match rest with
      | s :: _ => s == sfx
      | [] => false
    else (uopt || units.isEmpty) && c == sfx

/-- `re.search` for the pattern `\d+[units](?)sfx`: true iff a match occurs
anywhere in the text. -/
def searchNum (units : List Char) (uopt : Bool) (sfx : Char) : Text → Bool
  | [] => false
  | c :: rest => (c.isDigit && numTail units uopt sfx rest) || searchNum units uopt sfx rest

/-- Finish a match of `\d+月` after at least one digit was consumed. -/
def dateTailM : Text → Bool
  | [] => false
  | c :: rest => if c.isDigit then dateTailM rest else c == '月'

/-- Match `\d+月` at the head of the input. -/
def dateStartM : Text → Bool
  | [] => false
  | c :: rest => c.isDigit && dateTailM rest

/-- Finish a match of `\d+年\d+月` after at least one digit was consumed. -/
def dateTailY : Text → Bool
  | [] => false
  | c :: rest => if c.isDigit then dateTailY rest else c == '年' && dateStartM rest

/-- `re.search(r'\d+年\d+月', ·)`. -/
def searchDateYM : Text → Bool
  | [] => false
  | c :: rest => (c.isDigit && dateTailY rest) || searchDateYM rest

/-! ## Rounding

Python `round(x, k)` rounds to the nearest multiple of `10^-k`.  The rounding
is written with an executable floor (`ratFloor`, proved equal to `Int.floor`
below) so that concrete scores evaluate inside the kernel. -/

/-- `⌊q⌋`, executably: the Euclidean quotient of numerator by denominator. -/
def ratFloor (q : ℚ) : ℤ := q.num / (q.den : ℤ)

/-- Round to the nearest integer (ties up), executably. -/
def roundQ (q : ℚ) : ℤ := ratFloor (q + 1/2)

/-- `round(x, 1)`. -/
def round1 (q : ℚ) : ℚ := (roundQ (q * 10) : ℚ) / 10

/-- `round(x, 2)`. -/
def round2 (q : ℚ) : ℚ := (roundQ (q * 100) : ℚ) / 100

/-! ## Scoring engine: `small_business_scoring_engine.py` -/

/-- One sub-criterion of the rubric: `{'weight': …, 'keywords': […]}`. -/
structure SubCriterion where
  name : String
  weight : ℚ
  keywords : List Text
deriving DecidableEq

/-- One top-level criterion: `{'max_score': …, 'weight': …, 'sub_criteria': …}`. -/
structure Criterion where
  name : String
  max_score : ℚ
  weight : ℚ
  sub_criteria : List SubCriterion
deriving DecidableEq

/-- `_initialize_scoring_criteria` (engine lines 13-57), in declaration order. -/
def scoring_criteria : List Criterion :=
  [⟨"経営状況分析の妥当性", 25, 25/100,
    [⟨"企業概要の充実度", 3/10, kws ["事業内容", "創業", "沿革", "従業員", "売上", "顧客"]⟩,
     ⟨"売上・財務分析", 3/10, kws ["売上高", "利益", "推移", "増減", "要因", "財務"]⟩,
     ⟨"強み・弱み分析", 25/100, kws ["強み", "弱み", "特徴", "優位性", "課題", "問題"]⟩,
     ⟨"市場・競合認識", 15/100, kws ["市場", "競合", "業界", "動向", "ライバル", "シェア"]⟩]⟩,
   ⟨"経営方針・目標の適切性", 25, 25/100,
    [⟨"経営方針の明確性", 3/10, kws ["方針", "理念", "ビジョン", "目標", "戦略"]⟩,
     ⟨"数値目標の具体性", 4/10, kws ["売上目標", "集客", "単価", "年度", "増加", "○○円", "○○人"]⟩,
     ⟨"市場・顧客対応", 2/10, kws ["顧客ニーズ", "市場動向", "ターゲット", "需要"]⟩,
     ⟨"実現可能性", 1/10, kws ["計画", "段階", "ステップ", "期間", "実施"]⟩]⟩,
   ⟨"補助事業計画の有効性", 30, 3/10,
    [⟨"事業計画の具体性", 3/10, kws ["具体的", "詳細", "内容", "方法", "手順"]⟩,
     ⟨"販路開拓の有効性", 25/100, kws ["販路", "新規", "開拓", "顧客獲得", "PR", "宣伝"]⟩,
     ⟨"新規性・独自性", 2/10, kws ["新たな", "独自", "他社にない", "差別化", "特色"]⟩,
     ⟨"デジタル活用", 15/100, kws ["デジタル", "IT", "ホームページ", "SNS", "システム", "DX"]⟩,
     ⟨"効果・成果予測", 1/10, kws ["効果", "成果", "売上増", "集客増", "効率化"]⟩]⟩,
   ⟨"積算の透明・適切性", 20, 2/10,
    [⟨"経費明細の妥当性", 4/10, kws ["経費", "明細", "内訳", "単価", "数量"]⟩,
     ⟨"必要性の説明", 3/10, kws ["必要", "理由", "根拠", "効果", "目的"]⟩,
     ⟨"計算の正確性", 2/10, kws ["合計", "計算", "金額", "×", "円"]⟩,
     ⟨"補助対象適合性", 1/10, kws ["補助対象", "対象経費", "適用"]⟩]⟩]

/-- One bonus-table entry: `{'keywords': […], 'points': …}`. -/
structure BonusCriterion where
  name : String
  keywords : List Text
  points : ℕ
deriving DecidableEq

/-- `_initialize_bonus_criteria`, `priority_bonus` table (engine lines 62-67). -/
def priority_bonus : List BonusCriterion :=
  [⟨"赤字賃上げ加点", kws ["赤字", "賃上げ", "賃金引上げ"], 5⟩,
   ⟨"事業環境変化加点", kws ["物価高騰", "コロナ", "環境変化", "影響"], 5⟩,
   ⟨"東日本大震災加点", kws ["震災", "被災", "復興"], 3⟩,
   ⟨"くるみん・えるぼし加点", kws ["くるみん", "えるぼし", "女性活躍"], 3⟩]

/-- `_initialize_bonus_criteria`, `policy_bonus` table (engine lines 68-74). -/
def policy_bonus : List BonusCriterion :=
  [⟨"賃金引上げ加点", kws ["賃上げ", "30円", "時給", "昇給"], 3⟩,
   ⟨"地方創生型加点", kws ["地域資源", "地方創生", "地域活性化"], 3⟩,
   ⟨"経営力向上計画加点", kws ["経営力向上計画", "認定"], 2⟩,
   ⟨"事業承継加点", kws ["事業承継", "後継者", "60歳"], 3⟩,
   ⟨"過疎地域加点", kws ["過疎地域"], 2⟩]

/-- `sum(1 for keyword in keywords if keyword in text_content)` (engine line 176). -/
def keyword_matches (keywords : List Text) (text : Text) : ℕ :=
  (keywords.filter fun k => containsSub k text).length

/-- The six fixed `concrete_patterns` of `_evaluate_content_quality` (line 219). -/
def concrete_patterns : List Text :=
  kws ["具体的に", "詳細", "明確", "○○", "について", "により"]

/-- `_evaluate_content_quality` (engine lines 204-223).  The `keywords` argument
is kept because the source takes it, even though the body never reads it. -/
def evaluate_content_quality (text : Text) (_keywords : List Text) : ℚ :=
  let q1 : ℚ := if 500 < text.length then 2/10 else 0
  let q2 : ℚ := if 1000 < text.length then 2/10 else 0
  let q3 : ℚ :=
    if searchNum ['万', '億', '千', '百', '十'] true '円' text
        || searchNum ['万', '千', '百', '十'] true '人' text
        || searchNum [] true '%' text
        || searchNum [] true '年' text
    then 3/10 else 0
  let concrete_matches : ℕ := (concrete_patterns.filter fun p => containsSub p text).length
  let q4 : ℚ := min (3/10) ((concrete_matches : ℚ) / (concrete_patterns.length : ℚ))
  min 1 (q1 + q2 + q3 + q4)

/-- `_evaluate_specificity` (engine lines 225-242): 0.2 per numeric pattern
found, capped at 1.0.  The `keywords` argument is kept because the source takes
it, even though the body never reads it. -/
def evaluate_specificity (text : Text) (_keywords : List Text) : ℚ :=
  let hits : List Bool :=
    [searchDateYM text,
     searchNum ['万', '億', '千'] false '円' text,
     searchNum ['万', '千'] false '人' text,
     searchNum [] true '%' text,
     searchNum [] true '回' text]
  min 1 (((hits.filter id).length : ℚ) * (2/10))

/-- One sub-criterion's contribution (engine lines 174-187):
`(keyword_score*0.4 + quality_score*0.3 + specificity_score*0.3) * weight`. -/
def sub_score (text : Text) (sc : SubCriterion) : ℚ :=
  let km : ℕ := keyword_matches sc.keywords text
  let keyword_score : ℚ := min 1 ((km : ℚ) / (sc.keywords.length : ℚ) * (15/10))
  let quality_score : ℚ := evaluate_content_quality text sc.keywords
  let specificity_score : ℚ := evaluate_specificity text sc.keywords
  (keyword_score * (4/10) + quality_score * (3/10) + specificity_score * (3/10)) * sc.weight

/-- One entry of the `detailed_scores` map (engine lines 196-200). -/
structure ScoreInfo where
  name : String
  score : ℚ
  max_score : ℚ
  sub_scores : List ℚ
deriving DecidableEq

/-- Score one criterion (engine lines 170-200): sum the sub-criterion
contributions, scale by `max_score`, apply the 20% strict-mode cut, round to one
decimal.  `text` is the already-lowercased text. -/
def score_criterion (text : Text) (strict_mode : Bool) (c : Criterion) : ScoreInfo :=
  let subs : List ℚ := c.sub_criteria.map (sub_score text)
  let base : ℚ := subs.sum * c.max_score
  let adjusted : ℚ := if strict_mode then base * (8/10) else base
  ⟨c.name, round1 adjusted, c.max_score, subs⟩

/-- `_score_detailed_criteria` (engine lines 165-202); lowers the text once. -/
def score_detailed_criteria (text : Text) (strict_mode : Bool) : List ScoreInfo :=
  scoring_criteria.map (score_criterion (lowerText text) strict_mode)

/-- One reported bonus item (engine lines 257-262 / 270-275; the
`requirements` string, a fixed rendering of the keyword list, is omitted). -/
structure BonusItem where
  name : String
  eligible : Bool
  points : ℕ
deriving DecidableEq

/-- Build one bonus item from its table entry (engine lines 252-262):
eligible iff some keyword occurs in the (lowercased) text; ineligible entries
get 0 points.  `text` is the already-lowercased text. -/
def bonus_item (text : Text) (b : BonusCriterion) : BonusItem :=
  let eligible : Bool := b.keywords.any fun k => containsSub k text
  ⟨b.name, eligible, if eligible then b.points else 0⟩

/-- The value of `_analyze_bonus_points`. -/
structure BonusAnalysis where
  total_points : ℕ
  priority_bonuses : List BonusItem
  policy_bonuses : List BonusItem
deriving DecidableEq

/-- `_analyze_bonus_points` (engine lines 244-281).  The source accumulates
`total_points` while looping; that running total equals the sum of the points
recorded on the items. -/
def analyze_bonus_points (text : Text) : BonusAnalysis :=
  let lt : Text := lowerText text
  let pri : List BonusItem := priority_bonus.map (bonus_item lt)
  let pol : List BonusItem := policy_bonus.map (bonus_item lt)
  ⟨(pri.map BonusItem.points).sum + (pol.map BonusItem.points).sum, pri, pol⟩

/-- `_apply_strict_adjustment` (engine lines 283-298): length-based penalty
(shorter threshold wins), then a penalty when no `\d+[万億千]円|\d+[万千]人`
pattern occurs in the lowercased text, then round to one decimal. -/
def apply_strict_adjustment (score : ℚ) (text : Text) : ℚ :=
  let s1 : ℚ :=
    if text.length < 500 then score * (7/10)
    else if text.length < 1000 then score * (85/100)
    else score
  let lt : Text := lowerText text
  let s2 : ℚ :=
    if !(searchNum ['万', '億', '千'] false '円' lt || searchNum ['万', '千'] false '人' lt)
    then s1 * (9/10) else s1
  round1 s2

/-- `_determine_evaluation_level` (engine lines 300-311). -/
def determine_evaluation_level (score : ℚ) : String :=
  if 80 ≤ score then "優秀"
  else if 65 ≤ score then "良好"
  else if 50 ≤ score then "普通"
  else if 35 ≤ score then "不十分"
  else "不適格"

/-- `_calculate_adoption_probability` (engine lines 313-333). -/
def calculate_adoption_probability (score : ℚ) (bonus_points : ℕ) : ℚ :=
  let base : ℚ :=
    if 80 ≤ score then 85
    else if 70 ≤ score then 70
    else if 60 ≤ score then 50
    else if 50 ≤ score then 30
    else 10
  round1 (min 95 (base + (bonus_points : ℚ) * 2))

/-- One improvement suggestion (shape of the dictionaries built in
`_check_basic_requirements` and `_generate_improvements`). -/
structure Improvement where
  item : String
  priority : String
  current_issue : String
  improvement_method : String
  «example» : String
deriving DecidableEq

/-- The four required topic groups of the basic-requirements gate
(engine lines 145-150). -/
def required_items : List (String × List Text) :=
  [("企業概要", kws ["事業内容", "業種", "従業員"]),
   ("売上情報", kws ["売上", "売上高", "利益"]),
   ("経営方針", kws ["方針", "目標", "計画"]),
   ("補助事業計画", kws ["補助事業", "計画", "内容"])]

/-- The urgent improvement recorded for one missing group (engine lines 154-160). -/
def gate_issue (item_name : String) : Improvement :=
  ⟨item_name ++ "の記載不足", "緊急",
   item_name ++ "に関する記載が見つかりません",
   item_name ++ "の詳細な記載を追加してください",
   item_name ++ "について具体的な内容を記載する必要があります"⟩

/-- The groups of `required_items` with zero keyword hits in the (raw) text. -/
def missing_items (text : Text) : List (String × List Text) :=
  required_items.filter fun it => !(it.2.any fun k => containsSub k text)

/-- `_check_basic_requirements` (engine lines 137-163): `passed` together with
one urgent issue appended per missing group, in table order.  The gate inspects
the raw (not lowercased) text. -/
def check_basic_requirements (text : Text) : Bool × List Improvement :=
  ((missing_items text).isEmpty, (missing_items text).map fun it => gate_issue it.1)

/-- One improvement template of `_generate_improvements` (the priority is
filled in per run from the criterion's score). -/
structure ImprovementTemplate where
  item : String
  current_issue : String
  improvement_method : String
  «example» : String

/-- The per-criterion template sets with their low-score thresholds
(engine lines 341-422), in the criteria's declaration order. -/
def improvement_templates : List (String × ℚ × List ImprovementTemplate) :=
  [("経営状況分析の妥当性", 18,
    [⟨"企業概要の詳細化", "事業内容や特徴の説明が不十分",
      "創業年、従業員数、主要商品・サービス、事業規模を具体的に記載",
      "「創業○年、従業員○名の○○業。主力商品は○○で、年間売上○○万円」"⟩,
     ⟨"売上・財務分析の強化", "売上推移や財務状況の分析が表面的",
      "過去3年間の売上推移を表形式で示し、増減要因を具体的に分析",
      "「2022年:○○万円→2023年:○○万円→2024年:○○万円。増加要因は○○」"⟩,
     ⟨"強み・弱みの明確化", "自社の強み・弱みの分析が抽象的",
      "競合他社との比較を含めた客観的な強み・弱み分析",
      "「強み:他社にない○○技術、弱み:認知度不足(市場シェア○%)」"⟩]),
   ("経営方針・目標の適切性", 18,
    [⟨"数値目標の具体化", "売上目標や集客目標が曖昧",
      "年度別の具体的な数値目標を表形式で設定",
      "「2025年:売上○○万円(前年比○%増)、新規顧客○○人獲得」"⟩,
     ⟨"市場・顧客分析の深化", "ターゲット顧客や市場動向の分析が不足",
      "統計データを活用した市場規模・成長性・顧客特性の分析",
      "「○○市場規模○○億円、年成長率○%。主要顧客層は○○代○○」"⟩]),
   ("補助事業計画の有効性", 22,
    [⟨"事業計画の具体化", "補助事業の内容や手順が抽象的",
      "実施時期、実施方法、担当者を含む詳細な実行計画",
      "「○月:ホームページ制作開始、○月:完成・公開、担当:○○」"⟩,
     ⟨"販路開拓効果の明確化", "販路開拓による効果の予測が不明確",
      "新規顧客獲得数、売上増加額を具体的に予測",
      "「HP経由で月○○件の問い合わせ、○○万円の売上増を見込む」"⟩,
     ⟨"デジタル活用の強化", "デジタル技術の活用が限定的",
      "SNS、ECサイト、顧客管理システム等の具体的活用計画",
      "「Instagram活用で若年層開拓、月○○投稿で○○フォロワー獲得目標」"⟩]),
   ("積算の透明・適切性", 15,
    [⟨"経費明細の詳細化", "経費の内訳や単価が不明確",
      "見積書を取得し、単価×数量の詳細な明細を作成",
      "「ホームページ制作 ○○円、保守費用 ○○円/年」"⟩,
     ⟨"必要性の根拠強化", "各経費の必要性の説明が不十分",
      "各経費がなぜ必要か、どのような効果があるかを具体的に説明",
      "「○○導入により業務効率○%向上、年間○○時間削減効果」"⟩])]

/-- `_generate_improvements` (engine lines 335-452).  `text` is the lowercased
text the source computes at line 338.  For each criterion scoring below its
threshold, all of its templates are emitted with priority 重要 (important) when
the score is below 0.7×threshold, 推奨 (recommended) otherwise; then the two
global checks append their fixed entries. -/
def generate_improvements (detailed_scores : List ScoreInfo) (text : Text) : List Improvement :=
  let per_criterion : List Improvement :=
    (detailed_scores.map fun si =>
      ((improvement_templates.filter fun tpl => tpl.1 = si.name).map fun tpl =>
        if si.score < tpl.2.1 then
          tpl.2.2.map fun t =>
            ⟨t.item, if si.score < tpl.2.1 * (7/10) then "重要" else "推奨",
             t.current_issue, t.improvement_method, t.example⟩
        else []).flatten).flatten
  let numeric : List Improvement :=
    if !(searchNum ['万', '億', '千'] false '円' text) then
      [⟨"数値データの充実", "重要", "具体的な金額や数量の記載が不足",
        "売上、経費、目標値等を具体的な数値で記載",
        "「現在の月商○○万円を○○万円に増加させる計画」"⟩]
    else []
  let length_check : List Improvement :=
    if text.length < 1000 then
      [⟨"記載内容の充実", "推奨", "全体的な記載量が不足している可能性",
        "各項目について、より詳細で具体的な内容を記載",
        "背景、現状、課題、解決策、効果を段階的に詳述"⟩]
    else []
  per_criterion ++ numeric ++ length_check

/-- The scoring result returned by `score_application`.  The failure branch of
the source returns a dictionary without the timestamp; the timestamp (wall
clock) is outside the model. -/
structure ScoringResult where
  total_score : ℚ
  evaluation_level : String
  adoption_probability : ℚ
  basic_requirements_passed : Bool
  detailed_scores : List ScoreInfo
  improvements : List Improvement
  bonus_points : ℕ
  error : Option String
deriving DecidableEq

/-- The pre-strict-adjustment total of the success branch (engine lines
102-104): `min(100, base_score + bonus_points)`. -/
def pre_adjustment_total (text : Text) (strict_mode : Bool) : ℚ :=
  min 100 (((score_detailed_criteria text strict_mode).map ScoreInfo.score).sum
    + ((analyze_bonus_points text).total_points : ℚ))

/-- `score_application` (engine lines 77-127).  The `except` clause (lines
129-135) can only be reached through a runtime fault and is outside the model;
every operation below is total. -/
def score_application (text : Text) (strict_mode : Bool) : ScoringResult :=
  let basic := check_basic_requirements text
  if !basic.1 then
    ⟨0, "不適格", 0, false, [], basic.2, 0, some "基礎審査で必須要件を満たしていません"⟩
  else
    let detailed := score_detailed_criteria text strict_mode
    let bonus := analyze_bonus_points text
    let total₀ := pre_adjustment_total text strict_mode
    let total := if strict_mode then apply_strict_adjustment total₀ text else total₀
    ⟨total, determine_evaluation_level total,
     calculate_adoption_probability total bonus.total_points, true, detailed,
     generate_improvements detailed (lowerText text), bonus.total_points, none⟩

/-! ## Analyzer: `small_business_analyzer.py`

Only the parts the verified properties concern are embedded: the subsidy-plan
keyword flags (`_analyze_subsidy_plan`, lines 365-393), the amount-capture
normalisation shared by the sales/profit extractions (lines 199-247), the
document-quality metrics (`_assess_content_quality`, lines 464-493, and
`_calculate_completeness`, lines 495-514), and the dispatch of `analyze_pdf`
after text extraction (lines 88-112).  The remaining analytic fields
(`company_info`, `financial_data`, market/strength/plan signals,
`cost_breakdown`, `bonus_indicators`) are independent per-field extractions that
none of the verified properties inspect. -/

/-- The fixed `subsidy_plan` keyword list of `_initialize_analysis_patterns`
(analyzer lines 59-64). -/
def subsidy_plan_keywords : List Text :=
  kws ["補助事業", "販路開拓", "業務効率", "ホームページ", "チラシ",
       "看板", "設備", "機械", "システム", "広告", "PR"]

/-- The keyword-flag part of `_analyze_subsidy_plan` (analyzer lines 365-393):
matched subsidy keywords plus the three boolean flags.  The `expected_effects`
regex extraction (lines 395-398) is a separate numeric extraction that no
verified property inspects. -/
structure SubsidyPlanFlags where
  subsidy_items : List Text
  sales_development : Bool
  efficiency_improvement : Bool
  digital_utilization : Bool
deriving DecidableEq

/-- `_analyze_subsidy_plan`, keyword-flag part (analyzer lines 365-393): every
test is `keyword in text_lower` on the lowercased text. -/
def analyze_subsidy_plan_flags (text : Text) : SubsidyPlanFlags :=
  let lt : Text := lowerText text
  { subsidy_items := subsidy_plan_keywords.filter fun k => containsSub k lt
    sales_development :=
      (kws ["販路", "新規", "開拓", "顧客獲得", "営業"]).any fun k => containsSub k lt
    efficiency_improvement :=
      (kws ["効率", "省力", "自動", "時短", "合理化"]).any fun k => containsSub k lt
    digital_utilization :=
      (kws ["デジタル", "it", "ホームページ", "sns", "システム", "dx"]).any fun k =>
        containsSub k lt }

/-- One extracted amount mention: the digit string with thousands separators
stripped, and the unit token exactly as captured.  This is the dictionary built
for each `findall` capture of the sales/profit patterns (analyzer lines 213-217
and 243-247): `{'amount': match[0].replace(',', ''), 'unit': match[1]}`. -/
structure AmountMention where
  amount : Text
  unit : Text
deriving DecidableEq

/-- Normalise one `(numeral, unit)` capture of the amount regexes
`(\d{1,3}(?:,\d{3})*|\d+)` / `(万円|千円|億円)`: strip the commas from the
numeral, carry the unit through untouched. -/
def parse_amount_capture (num : Text) (unit : Text) : AmountMention :=
  ⟨num.filter fun c => c ≠ ',', unit⟩

/-- The numeric value denoted by a digit string (most significant digit first). -/
def digitsToNat (t : Text) : ℕ :=
  t.foldl (fun n c => 10 * n + (c.toNat - 48)) 0

/-! ### Non-overlapping match counting (`re.findall` lengths)

`_assess_content_quality` counts `findall` matches.  `findall` scans left to
right and continues after the end of each match, so these counters skip the
matched span; a fuel argument (at least the text length, each step consumes at
least one character) drives the recursion. -/

/-- Match a literal pattern at the head of the input, returning the rest after
the match. -/
def matchLit (pat : Text) (t : Text) : Option Text :=
  if pat ≠ [] ∧ pat.isPrefixOf t then some (t.drop pat.length) else none

/-- Finish a match of `\d+[units]sfx` (unit class mandatory when nonempty) from
the position after at least one digit, returning the rest after the match. -/
def numCountTail (units : List Char) (sfx : Char) : Text → Option Text
  | [] => none
  | c :: rest =>
    if c.isDigit then numCountTail units sfx rest
    else if units.contains c then
      match rest with
      | s :: r2 => if s == sfx then some r2 else none
      | [] => none
    else if units.isEmpty ∧ c = sfx then some rest else none

/-- Match `\d+[units]sfx` at the head of the input. -/
def matchNumUnit (units : List Char) (sfx : Char) : Text → Option Text
  | [] => none
  | c :: rest => if c.isDigit then numCountTail units sfx rest else none

/-- Finish a match of `\d+月`, returning the rest after the match. -/
def dateCountTailM : Text → Option Text
  | [] => none
  | c :: rest => if c.isDigit then dateCountTailM rest
                 else if c = '月' then some rest else none

/-- Match `\d+月` at the head of the input. -/
def dateCountStartM : Text → Option Text
  | [] => none
  | c :: rest => if c.isDigit then dateCountTailM rest else none

/-- Finish a match of `\d+年\d+月`, returning the rest after the match. -/
def dateCountTailY : Text → Option Text
  | [] => none
  | c :: rest => if c.isDigit then dateCountTailY rest
                 else if c = '年' then dateCountStartM rest else none

/-- Match `\d+年\d+月` at the head of the input. -/
def matchDateYM : Text → Option Text
  | [] => none
  | c :: rest => if c.isDigit then dateCountTailY rest else none

/-- Count non-overlapping matches of `step`, scanning left to right and
resuming after each match, exactly as `re.findall` does.  `step` consumes at
least one character whenever it succeeds, so fuel `t.length` is enough. -/
def countMatchesAux (step : Text → Option Text) : ℕ → Text → ℕ
  | 0, _ => 0
  | _ + 1, [] => 0
  | fuel + 1, c :: rest =>
    match step (c :: rest) with
    | some r => 1 + countMatchesAux step fuel r
    | none => countMatchesAux step fuel rest

/-- `len(re.findall(pattern, t))` for a matcher `step`. -/
def countMatches (step : Text → Option Text) (t : Text) : ℕ :=
  countMatchesAux step t.length t

/-- `len(re.findall(r'\d+', t))`: the number of maximal digit runs. -/
def countDigitRunsAux : Bool → Text → ℕ
  | _, [] => 0
  | prev, c :: rest =>
    (if c.isDigit && !prev then 1 else 0) + countDigitRunsAux c.isDigit rest

/-- `len(re.findall(r'\d+', t))`. -/
def countDigitRuns (t : Text) : ℕ := countDigitRunsAux false t

/-- The `quality_assessment` dictionary of `_assess_content_quality`
(analyzer lines 464-493). -/
structure QualityAssessment where
  text_length : ℕ
  paragraph_count : ℕ
  numerical_data_count : ℕ
  concrete_expressions : ℕ
  quality_score : ℚ
deriving DecidableEq

/-- `_assess_content_quality` (analyzer lines 464-493). -/
def assess_content_quality (text : Text) : QualityAssessment :=
  let numerical_data_count : ℕ := countDigitRuns text
  let concrete_expressions : ℕ :=
    countMatches (matchLit ("具体的に".data)) text
    + countMatches (matchLit ("詳細".data)) text
    + countMatches matchDateYM text
    + countMatches (matchNumUnit ['万', '億', '千'] '円') text
    + countMatches (matchNumUnit [] '人') text
  let length_score : ℚ := min 1 ((text.length : ℚ) / 2000)
  let numerical_score : ℚ := min 1 ((numerical_data_count : ℚ) / 20)
  let concrete_score : ℚ := min 1 ((concrete_expressions : ℚ) / 10)
  { text_length := text.length
    paragraph_count := countMatches (matchLit ("\n\n".data)) text + 1
    numerical_data_count := numerical_data_count
    concrete_expressions := concrete_expressions
    quality_score := (length_score + numerical_score + concrete_score) / 3 }

/-- The six required topic groups of `_calculate_completeness`
(analyzer lines 497-504). -/
def completeness_sections : List (List Text) :=
  [kws ["企業概要", "事業内容", "会社"],
   kws ["売上", "財務", "業績"],
   kws ["強み", "弱み", "特徴"],
   kws ["市場", "競合", "顧客"],
   kws ["目標", "計画", "方針"],
   kws ["補助事業", "販路", "開拓"]]

/-- `_calculate_completeness` (analyzer lines 495-514): the fraction of the six
groups with a keyword hit in the lowercased text, rounded to two decimals. -/
def calculate_completeness (text : Text) : ℚ :=
  let lt : Text := lowerText text
  let completed : ℕ :=
    (completeness_sections.filter fun sec => sec.any fun k => containsSub k lt).length
  round2 ((completed : ℚ) / (completeness_sections.length : ℚ))

/-- The analysis result of `analyze_pdf`.  The failure dictionary carries only
`success`, `error` and an empty `text_content`; the success dictionary carries
the analytic fields, so those are optional here. -/
structure AnalysisResult where
  success : Bool
  error : Option String
  text_content : Text
  extracted_length : Option ℕ
  subsidy_plan : Option SubsidyPlanFlags
  content_quality : Option QualityAssessment
  completeness_score : Option ℚ
deriving DecidableEq

/-- The dispatch of `analyze_pdf` after text extraction (analyzer lines
88-112): an empty extracted text short-circuits to a failure result; otherwise
the per-field analyses run.  (PDF reading itself, lines 121-142, is external
I/O; of the analytic fields, those the verified properties inspect are
populated here.) -/
def analyze_text (text : Text) : AnalysisResult :=
  if text.isEmpty then
    { success := false
      error := some "PDFからテキストを抽出できませんでした"
      text_content := []
      extracted_length := none
      subsidy_plan := none
      content_quality := none
      completeness_score := none }
  else
    { success := true
      error := none
      text_content := text
      extracted_length := some text.length
      subsidy_plan := some (analyze_subsidy_plan_flags text)
      content_quality := some (assess_content_quality text)
      completeness_score := some (calculate_completeness text) }

/-- Modelled from the spec: "Keyword-flag groups … perform case-insensitive
substring containment tests against fixed keyword lists."  Case-insensitive
containment of a keyword in a text: both sides lowercased.  This is the spec's
claimed comparison, kept separate from the source's `containsSub kw (lowerText
t)` (which lowercases only the text) so the two can be compared. -/
def caseInsensitiveContains (needle : Text) (hay : Text) : Bool :=
  containsSub (lowerText needle) (lowerText hay)

/-! ## Fixed inputs used by the concrete theorems -/

/-- A minimal text passing the basic-requirements gate (each of the four
required groups has a keyword hit). -/
def gate_pass_text : Text := "事業内容売上方針計画".data

/-- Scenario C's text: exactly one priority-bonus keyword (赤字) and one
policy-bonus keyword (地域資源) occur, no other bonus keyword does. -/
def scenarioC_text : Text := "赤字と地域資源".data

/-- The keyword block of the Scenario-B text: one keyword from every
sub-criterion list of all four criteria, a currency amount (100万円) and a
headcount (10万人). -/
def scenarioB_kw : Text :=
  "事業内容売上高強み市場方針売上目標顧客ニーズ計画具体的に詳細販路独自デジタル効果経費必要合計補助対象100万円10万人".data

/-- A Scenario-B text: the keyword block (59 characters) padded to exactly 1200
characters. -/
def scenarioB_text : Text := scenarioB_kw ++ List.replicate 1141 'あ'

/-- The text "PR": it contains the subsidy keyword `PR` verbatim (hence also
case-insensitively), but its lowercasing is "pr". -/
def prText : Text := "PR".data

/-! ## Helper lemmas: rounding -/

lemma ratFloor_eq_floor (q : ℚ) : ratFloor q = ⌊q⌋ := Rat.floor_def.symm

lemma roundQ_eq_round (q : ℚ) : roundQ q = round q := by
  rw [roundQ, ratFloor_eq_floor, round_eq]

lemma roundQ_le_roundQ {x y : ℚ} (h : x ≤ y) : roundQ x ≤ roundQ y := by
  rw [roundQ_eq_round, roundQ_eq_round, round_eq, round_eq]
  exact Int.floor_le_floor (by linarith)

lemma round1_mono {x y : ℚ} (h : x ≤ y) : round1 x ≤ round1 y := by
  rw [round1, round1]
  exact (div_le_div_iff_of_pos_right (by norm_num)).mpr (Int.cast_le.mpr (roundQ_le_roundQ (by linarith)))

lemma roundQ_intCast (k : ℤ) : roundQ (k : ℚ) = k := by
  rw [roundQ_eq_round, round_intCast]

lemma round1_intCast_div_ten (k : ℤ) : round1 ((k : ℚ) / 10) = (k : ℚ) / 10 := by
  rw [round1, div_mul_cancel₀ _ (by norm_num : (10 : ℚ) ≠ 0), roundQ_intCast]

lemma round1_nonneg {q : ℚ} (h : 0 ≤ q) : 0 ≤ round1 q := by
  have h0 : round1 0 = 0 := by
    simpa using round1_intCast_div_ten 0
  calc (0 : ℚ) = round1 0 := h0.symm
    _ ≤ round1 q := round1_mono h

lemma round1_grid (q : ℚ) : ∃ k : ℤ, round1 q = (k : ℚ) / 10 := ⟨roundQ (q * 10), rfl⟩

lemma round1_le_intCast {q : ℚ} {m : ℤ} (h : q ≤ (m : ℚ)) : round1 q ≤ (m : ℚ) := by
  have hm : ((10 * m : ℤ) : ℚ) / 10 = (m : ℚ) := by push_cast; ring
  calc round1 q ≤ round1 ((m : ℚ)) := round1_mono h
    _ = round1 (((10 * m : ℤ) : ℚ) / 10) := by rw [hm]
    _ = ((10 * m : ℤ) : ℚ) / 10 := round1_intCast_div_ten _
    _ = (m : ℚ) := hm

lemma sum_div_ten (l : List ℚ) (h : ∀ x ∈ l, ∃ k : ℤ, x = (k : ℚ) / 10) :
    ∃ k : ℤ, l.sum = (k : ℚ) / 10 := by
  induction l with
  | nil => exact ⟨0, by simp⟩
  | cons a t ih =>
    obtain ⟨ka, hka⟩ := h a (by simp)
    obtain ⟨kt, hkt⟩ := ih fun x hx => h x (by simp [hx])
    exact ⟨ka + kt, by rw [List.sum_cons, hka, hkt]; push_cast; ring⟩

lemma min_div_ten (a b : ℤ) :
    min ((a : ℚ) / 10) ((b : ℚ) / 10) = ((min a b : ℤ) : ℚ) / 10 := by
  rcases le_total a b with h | h
  · rw [min_eq_left ((div_le_div_iff_of_pos_right (by norm_num)).mpr (Int.cast_le.mpr h)), min_eq_left h]
  · rw [min_eq_right ((div_le_div_iff_of_pos_right (by norm_num)).mpr (Int.cast_le.mpr h)), min_eq_right h]

/-! ## Helper lemmas: substring containment and lowercasing -/

lemma containsSub_eq_true_iff (n : Text) : ∀ h : Text, containsSub n h = true ↔ n <:+: h := by
  intro h
  induction h with
  | nil =>
    simp [containsSub, List.isEmpty_iff]
  | cons c t ih =>
    rw [containsSub, Bool.or_eq_true, List.isPrefixOf_iff_prefix, ih, List.infix_cons_iff]

lemma char_ofNat_toNat (n : ℕ) (h1 : 65 ≤ n) (h2 : n ≤ 90) :
    (Char.ofNat (n + 32)).toNat = n + 32 := by
  have hv : (n + 32).isValidChar := Or.inl (by omega)
  simp [Char.ofNat, hv, Char.toNat, Char.ofNatAux, UInt32.toNat]

/-- `lowerChar` never outputs an ASCII uppercase letter. -/
lemma lowerChar_ne_upper (c d : Char) (hd1 : 65 ≤ d.toNat) (hd2 : d.toNat ≤ 90) :
    lowerChar c ≠ d := by
  unfold lowerChar
  split
  · rename_i h
    intro heq
    have hn : (Char.ofNat (c.toNat + 32)).toNat = d.toNat := by rw [heq]
    rw [char_ofNat_toNat c.toNat h.1 h.2] at hn
    omega
  · rename_i h
    intro heq
    exact h (by rw [heq]; exact ⟨hd1, hd2⟩)

/-- A needle containing an ASCII uppercase letter is never a substring of a
lowercased text. -/
lemma containsSub_lowerText_eq_false (n : Text) (t : Text) (d : Char)
    (hdn : d ∈ n) (hd1 : 65 ≤ d.toNat) (hd2 : d.toNat ≤ 90) :
    containsSub n (lowerText t) = false := by
  rw [Bool.eq_false_iff]
  intro hcon
  have hinf : n <:+: lowerText t := (containsSub_eq_true_iff n (lowerText t)).mp hcon
  have hmem : d ∈ lowerText t := hinf.subset hdn
  obtain ⟨c, _, hc⟩ := List.mem_map.mp hmem
  exact lowerChar_ne_upper c d hd1 hd2 hc

/-! ## Helper lemmas: score bounds -/

lemma evaluate_content_quality_bounds (t : Text) (ks : List Text) :
    0 ≤ evaluate_content_quality t ks ∧ evaluate_content_quality t ks ≤ 1 := by
  rw [evaluate_content_quality]
  refine ⟨le_min (by norm_num) ?_, min_le_left _ _⟩
  have h4 : (0 : ℚ) ≤ min (3/10)
      ((((concrete_patterns.filter fun p => containsSub p t).length : ℕ) : ℚ)
        / ((concrete_patterns.length : ℕ) : ℚ)) :=
    le_min (by norm_num) (by positivity)
  split_ifs <;> linarith

lemma evaluate_specificity_bounds (t : Text) (ks : List Text) :
    0 ≤ evaluate_specificity t ks ∧ evaluate_specificity t ks ≤ 1 := by
  rw [evaluate_specificity]
  exact ⟨le_min (by norm_num) (by positivity), min_le_left _ _⟩

lemma sub_score_bounds (t : Text) (sc : SubCriterion) (hw : 0 ≤ sc.weight) :
    0 ≤ sub_score t sc ∧ sub_score t sc ≤ sc.weight := by
  rw [sub_score]
  have hk0 : (0 : ℚ) ≤ min 1 (((keyword_matches sc.keywords t : ℕ) : ℚ)
      / ((sc.keywords.length : ℕ) : ℚ) * (15/10)) := le_min (by norm_num) (by positivity)
  have hk1 : min 1 (((keyword_matches sc.keywords t : ℕ) : ℚ)
      / ((sc.keywords.length : ℕ) : ℚ) * (15/10)) ≤ 1 := min_le_left _ _
  obtain ⟨hq0, hq1⟩ := evaluate_content_quality_bounds t sc.keywords
  obtain ⟨hs0, hs1⟩ := evaluate_specificity_bounds t sc.keywords
  constructor
  · apply mul_nonneg _ hw
    positivity
  · calc (min 1 _ * (4/10) + evaluate_content_quality t sc.keywords * (3/10)
        + evaluate_specificity t sc.keywords * (3/10)) * sc.weight
        ≤ (1 * (4/10) + 1 * (3/10) + 1 * (3/10)) * sc.weight := by
          apply mul_le_mul_of_nonneg_right _ hw
          have := mul_le_mul_of_nonneg_right hk1 (by norm_num : (0:ℚ) ≤ 4/10)
          have := mul_le_mul_of_nonneg_right hq1 (by norm_num : (0:ℚ) ≤ 3/10)
          have := mul_le_mul_of_nonneg_right hs1 (by norm_num : (0:ℚ) ≤ 3/10)
          linarith
      _ = sc.weight := by ring

/-- The common bound on one criterion's rounded score, under the table facts
(nonnegative weights summing to at most 1, an integral nonnegative maximum that
`round1` fixes). -/
lemma score_criterion_bounds (t : Text) (strict : Bool) (c : Criterion)
    (hw : ∀ sc ∈ c.sub_criteria, 0 ≤ sc.weight)
    (hsum : (c.sub_criteria.map SubCriterion.weight).sum ≤ 1)
    (hmax0 : 0 ≤ c.max_score)
    (hround : round1 c.max_score = c.max_score) :
    0 ≤ (score_criterion t strict c).score
      ∧ (score_criterion t strict c).score ≤ c.max_score := by
  rw [score_criterion]
  have hsubs0 : 0 ≤ (c.sub_criteria.map (sub_score t)).sum :=
    List.sum_nonneg fun x hx => by
      obtain ⟨sc, hsc, rfl⟩ := List.mem_map.mp hx
      exact (sub_score_bounds t sc (hw sc hsc)).1
  have hsubs1 : (c.sub_criteria.map (sub_score t)).sum ≤ 1 := by
    calc (c.sub_criteria.map (sub_score t)).sum
        ≤ (c.sub_criteria.map SubCriterion.weight).sum :=
          List.sum_le_sum fun sc hsc => (sub_score_bounds t sc (hw sc hsc)).2
      _ ≤ 1 := hsum
  have hbase0 : 0 ≤ (c.sub_criteria.map (sub_score t)).sum * c.max_score :=
    mul_nonneg hsubs0 hmax0
  have hbase1 : (c.sub_criteria.map (sub_score t)).sum * c.max_score ≤ c.max_score := by
    calc (c.sub_criteria.map (sub_score t)).sum * c.max_score
        ≤ 1 * c.max_score := mul_le_mul_of_nonneg_right hsubs1 hmax0
      _ = c.max_score := one_mul _
  have hadj : 0 ≤ (if strict then (c.sub_criteria.map (sub_score t)).sum * c.max_score * (8/10)
        else (c.sub_criteria.map (sub_score t)).sum * c.max_score)
      ∧ (if strict then (c.sub_criteria.map (sub_score t)).sum * c.max_score * (8/10)
        else (c.sub_criteria.map (sub_score t)).sum * c.max_score) ≤ c.max_score := by
    split_ifs
    · constructor
      · positivity
      · nlinarith
    · exact ⟨hbase0, hbase1⟩
  refine ⟨round1_nonneg hadj.1, ?_⟩
  calc round1 _ ≤ round1 c.max_score := round1_mono hadj.2
    _ = c.max_score := hround

/-- The per-criterion table facts of `scoring_criteria`, checked by evaluation. -/
lemma scoring_criteria_facts :
    ∀ c ∈ scoring_criteria,
      (∀ sc ∈ c.sub_criteria, 0 ≤ sc.weight)
      ∧ (c.sub_criteria.map SubCriterion.weight).sum = 1
      ∧ 0 ≤ c.max_score
      ∧ round1 c.max_score = c.max_score := by
  with_unfolding_all decide

/-- The common bound on every entry of the detailed-scores map. -/
lemma detailed_scores_bounds (text : Text) (strict : Bool) :
    ∀ si ∈ score_detailed_criteria text strict, 0 ≤ si.score ∧ si.score ≤ si.max_score := by
  intro si hsi
  obtain ⟨c, hc, rfl⟩ := List.mem_map.mp hsi
  obtain ⟨hw, hsum, hmax0, hround⟩ := scoring_criteria_facts c hc
  have h := score_criterion_bounds (lowerText text) strict c hw hsum.le hmax0 hround
  exact h

/-! ## Claim theorems -/

/-- C3: for every input text and both strict-mode settings, every criterion
score satisfies `0 ≤ score ≤ max`, the four maxima are exactly 25, 25, 30, 20
(summing to 100), within each criterion the sub-criterion weights sum to 1, and
the quality and specificity components always lie in `[0, 1]` (as does the
keyword-coverage component, being a `min` against 1 of a nonnegative value). -/
theorem criterion_scores_within_bounds (text : Text) (strict : Bool) :
    ((score_detailed_criteria text strict).map ScoreInfo.max_score = [25, 25, 30, 20]
      ∧ (25 : ℚ) + 25 + 30 + 20 = 100)
    ∧ (∀ si ∈ score_detailed_criteria text strict, 0 ≤ si.score ∧ si.score ≤ si.max_score)
    ∧ (∀ c ∈ scoring_criteria, (c.sub_criteria.map SubCriterion.weight).sum = 1)
    ∧ (∀ t : Text, ∀ ks : List Text,
        (0 ≤ evaluate_content_quality t ks ∧ evaluate_content_quality t ks ≤ 1)
        ∧ (0 ≤ evaluate_specificity t ks ∧ evaluate_specificity t ks ≤ 1)) := by
  refine ⟨⟨?_, by norm_num⟩, detailed_scores_bounds text strict, ?_, ?_⟩
  · simp [score_detailed_criteria, score_criterion, scoring_criteria]
  · exact fun c hc => (scoring_criteria_facts c hc).2.1
  · exact fun t ks => ⟨evaluate_content_quality_bounds t ks, evaluate_specificity_bounds t ks⟩

/-- C9: neither `_evaluate_content_quality` nor `_evaluate_specificity` depends
on its keywords argument: two calls with the same text and any two keyword
lists return equal results, so the quality and specificity components are
identical across all sub-criteria of all four criteria. -/
theorem quality_specificity_keyword_noninterference (text : Text) (ks1 ks2 : List Text) :
    (evaluate_content_quality text ks1 = evaluate_content_quality text ks2
      ∧ evaluate_specificity text ks1 = evaluate_specificity text ks2)
    ∧ (∀ c1 ∈ scoring_criteria, ∀ c2 ∈ scoring_criteria,
        ∀ sc1 ∈ c1.sub_criteria, ∀ sc2 ∈ c2.sub_criteria,
          evaluate_content_quality text sc1.keywords
              = evaluate_content_quality text sc2.keywords
            ∧ evaluate_specificity text sc1.keywords
              = evaluate_specificity text sc2.keywords) :=
  ⟨⟨rfl, rfl⟩, fun _ _ _ _ _ _ _ _ => ⟨rfl, rfl⟩⟩

/-- C6: for every amount capture, the thousands separators (commas) are
stripped from the numeral and the unit token is carried through untouched; in
particular the capture `("1,234", "万円")` yields the amount digits `1234`
(denoting the number 1234) with the unit preserved as 万円, unnormalised. -/
theorem amount_capture_strips_separators_preserves_unit :
    (∀ num unit : Text, (parse_amount_capture num unit).unit = unit)
    ∧ (∀ num unit : Text,
        (parse_amount_capture num unit).amount = num.filter fun c => c ≠ ',')
    ∧ parse_amount_capture ("1,234".data) ("万円".data)
        = ⟨"1234".data, "万円".data⟩
    ∧ digitsToNat (parse_amount_capture ("1,234".data) ("万円".data)).amount = 1234 :=
  ⟨fun _ _ => rfl, fun _ _ => rfl, by decide, by decide⟩

/-- C7: the bonus total is the sum, over the multiset of the two fixed tables'
entries (hence independent of evaluation order), of each entry's points
gated by its eligibility; eligibility is exactly "some keyword of the entry
occurs in the lowercased text"; ineligible items carry 0 points; and on
Scenario C's text (`赤字` and `地域資源` the only bonus hits) the total is 8
with exactly those two entries eligible. -/
theorem bonus_total_sums_eligible_entries (text : Text) :
    ((analyze_bonus_points text).total_points
      = (Multiset.map (fun b => (bonus_item (lowerText text) b).points)
          ((priority_bonus ++ policy_bonus : List BonusCriterion) : Multiset BonusCriterion)).sum)
    ∧ (∀ b : BonusCriterion, (bonus_item (lowerText text) b).eligible
        = b.keywords.any fun k => containsSub k (lowerText text))
    ∧ (∀ item ∈ (analyze_bonus_points text).priority_bonuses
          ++ (analyze_bonus_points text).policy_bonuses,
        item.eligible = true ∨ item.points = 0)
    ∧ (analyze_bonus_points scenarioC_text).total_points = 8
    ∧ ((analyze_bonus_points scenarioC_text).priority_bonuses.map
          fun b => (b.eligible, b.points)) = [(true, 5), (false, 0), (false, 0), (false, 0)]
    ∧ ((analyze_bonus_points scenarioC_text).policy_bonuses.map
          fun b => (b.eligible, b.points))
        = [(false, 0), (true, 3), (false, 0), (false, 0), (false, 0)] := by
  refine ⟨?_, fun b => rfl, ?_, by decide, by decide, by decide⟩
  · rw [Multiset.map_coe, Multiset.sum_coe, analyze_bonus_points]
    simp [List.map_map, Function.comp_def]
  · intro item hitem
    have hmem : item ∈ (priority_bonus.map (bonus_item (lowerText text)))
        ++ (policy_bonus.map (bonus_item (lowerText text))) := hitem
    rw [← List.map_append] at hmem
    obtain ⟨b, _, rfl⟩ := List.mem_map.mp hmem
    rw [bonus_item]
    by_cases he : (b.keywords.any fun k => containsSub k (lowerText text)) = true
    · exact Or.inl (by simp [he])
    · exact Or.inr (by simp [Bool.eq_false_iff.mpr he])

/-- C10: for every text the bonus analysis returns exactly 4 priority items and
5 policy items, in the tables' declaration order (same names in order), every
item is eligible or carries 0 points, the priority part sums to at most 16, the
policy part to at most 13, and the total (a natural number, hence at least 0)
is at most 29. -/
theorem bonus_analysis_shape_and_cap (text : Text) :
    (analyze_bonus_points text).priority_bonuses.length = 4
    ∧ (analyze_bonus_points text).policy_bonuses.length = 5
    ∧ ((analyze_bonus_points text).priority_bonuses.map BonusItem.name
        = priority_bonus.map BonusCriterion.name)
    ∧ ((analyze_bonus_points text).policy_bonuses.map BonusItem.name
        = policy_bonus.map BonusCriterion.name)
    ∧ (∀ item ∈ (analyze_bonus_points text).priority_bonuses
          ++ (analyze_bonus_points text).policy_bonuses,
        item.eligible = true ∨ item.points = 0)
    ∧ ((analyze_bonus_points text).priority_bonuses.map BonusItem.points).sum ≤ 16
    ∧ ((analyze_bonus_points text).policy_bonuses.map BonusItem.points).sum ≤ 13
    ∧ (analyze_bonus_points text).total_points ≤ 29 := by
  have hpri : ((analyze_bonus_points text).priority_bonuses.map BonusItem.points).sum ≤ 16 := by
    simp [analyze_bonus_points, priority_bonus, bonus_item]
    split_ifs <;> norm_num
  have hpol : ((analyze_bonus_points text).policy_bonuses.map BonusItem.points).sum ≤ 13 := by
    simp [analyze_bonus_points, policy_bonus, bonus_item]
    split_ifs <;> norm_num
  refine ⟨by simp [analyze_bonus_points, priority_bonus],
    by simp [analyze_bonus_points, policy_bonus],
    by simp [analyze_bonus_points, List.map_map, Function.comp_def, bonus_item],
    by simp [analyze_bonus_points, List.map_map, Function.comp_def, bonus_item],
    ?_, hpri, hpol, ?_⟩
  · intro item hitem
    have hmem : item ∈ (priority_bonus.map (bonus_item (lowerText text)))
        ++ (policy_bonus.map (bonus_item (lowerText text))) := hitem
    rw [← List.map_append] at hmem
    obtain ⟨b, _, rfl⟩ := List.mem_map.mp hmem
    rw [bonus_item]
    by_cases he : (b.keywords.any fun k => containsSub k (lowerText text)) = true
    · exact Or.inl (by simp [he])
    · exact Or.inr (by simp [Bool.eq_false_iff.mpr he])
  · have htot : (analyze_bonus_points text).total_points
        = ((analyze_bonus_points text).priority_bonuses.map BonusItem.points).sum
          + ((analyze_bonus_points text).policy_bonuses.map BonusItem.points).sum := rfl
    omega

/-- The pre-adjustment total is a multiple of 1/10 (criterion scores are
rounded to one decimal, bonus points are integral, 100 is on the grid) and is
nonnegative. -/
lemma pre_total_grid_nonneg (text : Text) (strict : Bool) :
    (∃ k : ℤ, pre_adjustment_total text strict = (k : ℚ) / 10)
      ∧ 0 ≤ pre_adjustment_total text strict := by
  have hgrid : ∀ x ∈ (score_detailed_criteria text strict).map ScoreInfo.score,
      ∃ k : ℤ, x = (k : ℚ) / 10 := by
    intro x hx
    obtain ⟨si, hsi, rfl⟩ := List.mem_map.mp hx
    obtain ⟨c, _, rfl⟩ := List.mem_map.mp hsi
    exact round1_grid _
  obtain ⟨kb, hkb⟩ := sum_div_ten _ hgrid
  have hb0 : 0 ≤ ((score_detailed_criteria text strict).map ScoreInfo.score).sum :=
    List.sum_nonneg fun x hx => by
      obtain ⟨si, hsi, rfl⟩ := List.mem_map.mp hx
      exact (detailed_scores_bounds text strict si hsi).1
  constructor
  · refine ⟨min 1000 (kb + 10 * (analyze_bonus_points text).total_points), ?_⟩
    rw [pre_adjustment_total, hkb]
    rw [show ((kb : ℚ) / 10 + ((analyze_bonus_points text).total_points : ℚ))
        = ((kb + 10 * (analyze_bonus_points text).total_points : ℤ) : ℚ) / 10 by
      push_cast; ring]
    rw [show (100 : ℚ) = ((1000 : ℤ) : ℚ) / 10 by norm_num]
    exact min_div_ten _ _
  · exact le_min (by norm_num) (add_nonneg hb0 (by positivity))

/-- C1: whenever the basic-requirements gate passes, the returned total equals
`min(100, sum of the four criterion scores + bonus points)` before the strict
adjustment (and is exactly that value when strict mode is off), and the strict
adjustment never increases the score: the adjusted total is at most the
pre-adjustment total. -/
theorem total_score_formula_and_strict_never_increases (text : Text) (strict : Bool)
    (h : (check_basic_requirements text).1 = true) :
    ((score_application text strict).total_score
      = if strict then apply_strict_adjustment (pre_adjustment_total text strict) text
        else pre_adjustment_total text strict)
    ∧ apply_strict_adjustment (pre_adjustment_total text strict) text
        ≤ pre_adjustment_total text strict := by
  obtain ⟨⟨k, hk⟩, hpre0⟩ := pre_total_grid_nonneg text strict
  constructor
  · simp [score_application, h]
  · have key : ∀ s : ℚ, s ≤ pre_adjustment_total text strict
        → round1 s ≤ pre_adjustment_total text strict := by
      intro s hle
      calc round1 s ≤ round1 (pre_adjustment_total text strict) := round1_mono hle
        _ = pre_adjustment_total text strict := by rw [hk]; exact round1_intCast_div_ten k
    rw [apply_strict_adjustment]
    apply key
    split_ifs <;> nlinarith [hpre0]

/-- Witness for C1 at a concrete gate-passing text, in strict mode. -/
theorem total_score_formula_witness :
    (check_basic_requirements gate_pass_text).1 = true
    ∧ (((score_application gate_pass_text true).total_score
        = if true then apply_strict_adjustment
            (pre_adjustment_total gate_pass_text true) gate_pass_text
          else pre_adjustment_total gate_pass_text true)
      ∧ apply_strict_adjustment (pre_adjustment_total gate_pass_text true) gate_pass_text
          ≤ pre_adjustment_total gate_pass_text true) :=
  ⟨by decide, total_score_formula_and_strict_never_increases gate_pass_text true (by decide)⟩

/-- The gate fails exactly when some required group has zero keyword hits. -/
lemma gate_fails_iff (text : Text) :
    (check_basic_requirements text).1 = false
      ↔ ∃ it ∈ required_items, ∀ kw ∈ it.2, containsSub kw text = false := by
  have h1 : (check_basic_requirements text).1 = (missing_items text).isEmpty := rfl
  rw [h1]
  constructor
  · intro hfalse
    have hne : missing_items text ≠ [] := by
      intro hnil
      rw [hnil] at hfalse
      simp at hfalse
    obtain ⟨it, hit⟩ := List.exists_mem_of_ne_nil _ hne
    rw [missing_items, List.mem_filter] at hit
    refine ⟨it, hit.1, fun kw hkw => ?_⟩
    have hany : (it.2.any fun k => containsSub k text) = false := by
      have := hit.2
      rwa [Bool.not_eq_true'] at this
    exact Bool.eq_false_iff.mpr (List.any_eq_false.mp hany kw hkw)
  · rintro ⟨it, hit, hall⟩
    rw [Bool.eq_false_iff]
    intro hemp
    rw [List.isEmpty_iff] at hemp
    have hmem : it ∈ missing_items text := by
      rw [missing_items, List.mem_filter]
      refine ⟨hit, ?_⟩
      rw [Bool.not_eq_true', List.any_eq_false]
      intro kw hkw
      rw [hall kw hkw]
      simp
    rw [hemp] at hmem
    simp at hmem

/-- C2: the basic-requirements gate fails (some required topic group has zero
keyword hits in the text) iff `score_application` returns the zeroed result:
total 0, level 不適格 (disqualified), `basic_requirements_passed = false`, an
empty detailed-scores map, 0 bonus points, and exactly one urgent (緊急)
improvement per missing group, in table order. -/
theorem gate_failure_characterisation (text : Text) (strict : Bool) :
    (∃ it ∈ required_items, ∀ kw ∈ it.2, containsSub kw text = false)
    ↔ ((score_application text strict).total_score = 0
      ∧ (score_application text strict).evaluation_level = "不適格"
      ∧ (score_application text strict).basic_requirements_passed = false
      ∧ (score_application text strict).detailed_scores = []
      ∧ (score_application text strict).bonus_points = 0
      ∧ (score_application text strict).improvements
          = ((missing_items text).map fun it => gate_issue it.1)
      ∧ ∀ imp ∈ (score_application text strict).improvements, imp.priority = "緊急") := by
  rw [← gate_fails_iff]
  by_cases hg : (check_basic_requirements text).1 = true
  · constructor
    · intro hfalse
      rw [hg] at hfalse
      exact absurd hfalse (by simp)
    · intro hr
      have hpassed := hr.2.2.1
      simp [score_application, hg] at hpassed
  · have hg' : (check_basic_requirements text).1 = false := Bool.eq_false_iff.mpr hg
    have himps : (score_application text strict).improvements
        = ((missing_items text).map fun it => gate_issue it.1) := by
      simp [score_application, hg']
      rfl
    constructor
    · intro _
      refine ⟨by simp [score_application, hg'], by simp [score_application, hg'],
        by simp [score_application, hg'], by simp [score_application, hg'],
        by simp [score_application, hg'], himps, ?_⟩
      intro imp himp
      rw [himps] at himp
      obtain ⟨it, _, rfl⟩ := List.mem_map.mp himp
      rfl
    · intro _
      exact hg'

/-- C5 (amended): the keyword tests lowercase the text but not the keyword: a
flag is true iff some keyword of its list occurs verbatim in the lowercased
text, and a keyword is matched iff it occurs verbatim in the lowercased text.
Consequently keywords containing an ASCII uppercase letter — such as `PR` and
`IT` in the rubric's tables — can never match any text. -/
theorem keyword_flags_match_on_lowercased_text :
    (∀ (t : Text) (keywords : List Text),
        (keywords.any fun k => containsSub k (lowerText t)) = true
          ↔ ∃ kw ∈ keywords, containsSub kw (lowerText t) = true)
    ∧ (∀ t : Text, (analyze_subsidy_plan_flags t).digital_utilization = true
          ↔ ∃ kw ∈ kws ["デジタル", "it", "ホームページ", "sns", "システム", "dx"],
              containsSub kw (lowerText t) = true)
    ∧ (∀ (t : Text) (kw : Text), kw ∈ (analyze_subsidy_plan_flags t).subsidy_items
          ↔ kw ∈ subsidy_plan_keywords ∧ containsSub kw (lowerText t) = true)
    ∧ (∀ t : Text, containsSub ("PR".data) (lowerText t) = false)
    ∧ (∀ t : Text, containsSub ("IT".data) (lowerText t) = false) := by
  refine ⟨fun t keywords => List.any_eq_true, fun t => List.any_eq_true,
    fun t kw => List.mem_filter, fun t => ?_, fun t => ?_⟩
  · exact containsSub_lowerText_eq_false _ t 'P' (by decide) (by decide) (by decide)
  · exact containsSub_lowerText_eq_false _ t 'I' (by decide) (by decide) (by decide)

/-- C5 counterexample: on the text `"PR"` the claimed equivalence between
"keyword matched" and "keyword contained case-insensitively" is false: the
keyword `PR` is contained in the text even verbatim (so certainly
case-insensitively), yet no subsidy keyword is matched, and the rubric
sub-criterion list containing `PR` records zero keyword matches. -/
theorem keyword_flag_case_insensitivity_refuted :
    ¬(((analyze_subsidy_plan_flags prText).subsidy_items ≠ [])
        ↔ ∃ kw ∈ subsidy_plan_keywords, caseInsensitiveContains kw prText = true)
    ∧ caseInsensitiveContains ("PR".data) prText = true
    ∧ ("PR".data) ∈ subsidy_plan_keywords
    ∧ (analyze_subsidy_plan_flags prText).subsidy_items = []
    ∧ (∃ c ∈ scoring_criteria, ∃ sc ∈ c.sub_criteria,
        ("PR".data) ∈ sc.keywords ∧ keyword_matches sc.keywords (lowerText prText) = 0) := by
  decide

/-- C8 (amended): on empty extracted text the analyzer returns a structured
failure result — `success = false`, an error message, empty text content and no
analytic fields — rather than a zeroed extracted document; the quality and
completeness scorers themselves do evaluate to 0 on empty text. -/
theorem empty_input_failure_shape :
    (analyze_text []).success = false
    ∧ (analyze_text []).error = some "PDFからテキストを抽出できませんでした"
    ∧ (analyze_text []).text_content = []
    ∧ (analyze_text []).extracted_length = none
    ∧ (analyze_text []).subsidy_plan = none
    ∧ (analyze_text []).content_quality = none
    ∧ (analyze_text []).completeness_score = none
    ∧ (assess_content_quality []).quality_score = 0
    ∧ (assess_content_quality []).text_length = 0
    ∧ calculate_completeness [] = 0 := by
  refine ⟨rfl, rfl, rfl, rfl, rfl, rfl, rfl, ?_, rfl, ?_⟩
  · with_unfolding_all decide
  · with_unfolding_all decide

/-- C8 counterexample: on empty input the analyzer does NOT return a success
document (its `success` flag is false and it carries an error), refuting the
claim that a zeroed `ExtractedDocument` is returned rather than a failure. -/
theorem empty_input_returns_failure :
    ¬((analyze_text []).success = true
        ∧ (analyze_text []).content_quality = some (assess_content_quality [])
        ∧ (analyze_text []).completeness_score = some 0) :=
  fun h => absurd h.1 (by decide)

/-- C4 (amended): for a 1200-character text containing at least one keyword
from every sub-criterion list of all four criteria and a currency-amount or
headcount pattern, scored with strict off, every criterion score is at most its
maximum (25, 25, 30, 20), and the final total is at most 100 — but, as the
counterexample shows, the scores need not equal the maxima (one keyword per
list leaves the keyword-coverage component below 1 on every multi-keyword
list). -/
theorem scenarioB_scores_at_most_maxima (t : Text)
    (_hlen : t.length = 1200)
    (_hcov : ∀ c ∈ scoring_criteria, ∀ sc ∈ c.sub_criteria,
        ∃ kw ∈ sc.keywords, containsSub kw t = true)
    (_hpat : (searchNum ['万', '億', '千'] false '円' t
        || searchNum ['万', '千'] false '人' t) = true) :
    (∀ si ∈ score_detailed_criteria t false, si.score ≤ si.max_score)
    ∧ ((score_detailed_criteria t false).map ScoreInfo.max_score = [25, 25, 30, 20])
    ∧ (score_application t false).total_score ≤ 100 := by
  refine ⟨fun si hsi => (detailed_scores_bounds t false si hsi).2,
    by simp [score_detailed_criteria, score_criterion, scoring_criteria], ?_⟩
  by_cases hg : (check_basic_requirements t).1 = true
  · have heq : (score_application t false).total_score = pre_adjustment_total t false := by
      simp [score_application, hg]
    rw [heq, pre_adjustment_total]
    exact min_le_left _ _
  · have hg' : (check_basic_requirements t).1 = false := Bool.eq_false_iff.mpr hg
    have heq : (score_application t false).total_score = 0 := by
      simp [score_application, hg']
    rw [heq]
    norm_num

set_option maxRecDepth 100000 in
/-- Witness for the amended C4 at the concrete Scenario-B text. -/
theorem scenarioB_scores_at_most_maxima_witness :
    (∀ si ∈ score_detailed_criteria scenarioB_text false, si.score ≤ si.max_score)
    ∧ ((score_detailed_criteria scenarioB_text false).map ScoreInfo.max_score
        = [25, 25, 30, 20])
    ∧ (score_application scenarioB_text false).total_score ≤ 100 :=
  scenarioB_scores_at_most_maxima scenarioB_text (by decide) (by decide) (by decide)

set_option maxRecDepth 100000 in
set_option maxHeartbeats 1000000 in
/-- C4 counterexample: the Scenario-B text `scenarioB_text` satisfies every
hypothesis of the scenario (length 1200, one keyword from every sub-criterion
list, a currency and a headcount pattern), yet with strict off the criterion
scores do not all equal their maxima (already the first criterion scores 14.5
out of 25), so the total before bonus is not 100 either. -/
theorem scenarioB_full_marks_refuted :
    scenarioB_text.length = 1200
    ∧ (∀ c ∈ scoring_criteria, ∀ sc ∈ c.sub_criteria,
        ∃ kw ∈ sc.keywords, containsSub kw scenarioB_text = true)
    ∧ (searchNum ['万', '億', '千'] false '円' scenarioB_text
        || searchNum ['万', '千'] false '人' scenarioB_text) = true
    ∧ ¬(∀ si ∈ score_detailed_criteria scenarioB_text false, si.score = si.max_score) :=
  ⟨by decide, by decide, by decide, by with_unfolding_all decide⟩

end SubsidyScoring
